import Mathlib

/-!
# ColorMuse Books: the page script (`src/script.js`)

A shallow embedding of the page script.  The DOM elements the script reads and
writes, the two script globals (`generatedImages`, `BOOK_PRICE`) and the
observable effects (`alert`, `console.error`, calls into the payment SDK) are
fields of one explicit state, `Page`; every function of the script is a function
on that state.
-/

namespace ColorMuse

/-! ## Strings -/

/-- Code points removed by `String.prototype.trim`: the ECMAScript `WhiteSpace`
production (TAB, VT, FF, ZWNBSP and the space separators) and `LineTerminator`
(LF, CR, LS, PS). -/
def isJsWhiteSpace (c : Char) : Bool :=
  let n := c.toNat
  n == 0x09 || n == 0x0A || n == 0x0B || n == 0x0C || n == 0x0D || n == 0x20 ||
  n == 0xA0 || n == 0x1680 || (0x2000 ≤ n && n ≤ 0x200A) || n == 0x2028 ||
  n == 0x2029 || n == 0x202F || n == 0x205F || n == 0x3000 || n == 0xFEFF

/-- Strip the white space at the end of a list of characters. -/
def trimEndChars (l : List Char) : List Char :=
  ((l.reverse).dropWhile isJsWhiteSpace).reverse

/-- Strip the white space at both ends of a list of characters. -/
def trimChars (l : List Char) : List Char :=
  trimEndChars (l.dropWhile isJsWhiteSpace)

/-- The method `String.prototype.trim`. -/
def jsTrim (s : String) : String :=
  String.mk (trimChars s.toList)

/-! ## The page state -/

/-- A child of the preview grid: an `img` element built by the script, or any
other markup that was there before. -/
inductive Node where
  | img (src : String) (alt : String)
  | other (html : String)
  deriving DecidableEq, Repr

/-- The element `#paypalContainer`: its inline `style.display` and its
`dataset.rendered` entry (`none` when the data attribute is not set). -/
structure Container where
  display : String
  rendered : Option String
  deriving DecidableEq, Repr

/-- Modelled from the spec: the markup of the page (`index.html`) is not among
the sources.  Following the spec's data model (OrderForm is name, email and
address, and resetting "clears all form fields"), the element `#orderForm` has
the three controls `#customerName`, `#customerEmail`, `#customerAddress` as its
form controls, each with an empty default value; `display` is the inline
`style.display` of the form. -/
structure OrderFormEl where
  display : String
  customerName : String
  customerEmail : String
  customerAddress : String
  deriving DecidableEq, Repr

/-- The argument of `paypal.Buttons`, without its three callbacks (they are the
functions `createOrder`, `onApprove` and `onError` below). -/
structure ButtonStyle where
  color : String
  shape : String
  label : String
  tagline : Bool
  deriving DecidableEq, Repr

/-- One call `paypal.Buttons(config).render(selector)`. -/
structure RenderCall where
  style : ButtonStyle
  selector : String
  deriving DecidableEq, Repr

/-- The continuation registered with `.then` on the promise of a capture. -/
inductive Continuation where
  | ofCapture
  deriving DecidableEq, Repr

/-- The state of one page session.

Elements the script dereferences without a test (`#promptInput`,
`#previewGrid`, `#orderSection`, `#orderModal`) are plain fields; the two
elements the script tests for `null` (`#paypalContainer` in
`initPayPalButtons`, `#orderForm` in `onApprove` and in the load handler) are
optional. -/
structure Page where
  /-- The script global `generatedImages`. -/
  generatedImages : List String
  /-- The `value` of `#promptInput`. -/
  promptInput : String
  /-- The children of `#previewGrid`. -/
  previewGrid : List Node
  /-- The `style.display` of `#orderSection`. -/
  orderSection : String
  /-- The `style.display` of `#orderModal`. -/
  orderModal : String
  /-- The element `#orderForm` with its controls. -/
  orderForm : Option OrderFormEl
  /-- The element `#paypalContainer`. -/
  paypalContainer : Option Container
  /-- Whether the global `paypal` is defined (the SDK script has loaded). -/
  paypal : Bool
  /-- The messages shown with `alert`, oldest first. -/
  alerts : List String
  /-- The argument lists of the calls of `console.error`, oldest first. -/
  consoleErrors : List (List String)
  /-- The calls of `render` on the SDK, oldest first. -/
  renders : List RenderCall
  /-- The number of calls of `actions.order.capture()`. -/
  captureCalls : Nat
  /-- The continuations waiting for a capture to complete, oldest first. -/
  pending : List Continuation
  deriving DecidableEq, Repr

/-- How a function of the script completes: normally, or abruptly with an
uncaught exception; either way with the page as it is at that point. -/
inductive Completion where
  | normal (page : Page)
  | throw (error : String) (page : Page)
  deriving DecidableEq, Repr

/-- The page a completion leaves behind. -/
def Completion.page : Completion → Page
  | .normal p => p
  | .throw _ p => p

/-- The call `alert(msg)`. -/
def alert (msg : String) (s : Page) : Page :=
  { s with alerts := s.alerts ++ [msg] }

/-- The call `console.error(args...)`. -/
def consoleError (args : List String) (s : Page) : Page :=
  { s with consoleErrors := s.consoleErrors ++ [args] }

/-! ## Preview generator -/

/-- The local constant `samples` of `generatePreview`. -/
def samples : List String :=
  ["assets/page1.png", "assets/page2.png", "assets/page3.png"]

/-- The value of `samples[i]`, as a string (an index out of range reads
`undefined`). -/
def sampleAt (pool : List String) (i : Nat) : String :=
  pool.getD i "undefined"

/-- The loop `for (let i = 0; i < 25; i++) generatedImages.push(samples[i % samples.length])`,
run on the array `acc`. -/
def pushSamples (pool : List String) (acc : List String) : List String :=
  (List.range 25).foldl (fun imgs i => imgs ++ [sampleAt pool (i % pool.length)]) acc

/-- The call `generatedImages.forEach(src => ... previewGrid.appendChild(img))`
on the grid `grid`. -/
def appendImages (imgs : List String) (grid : List Node) : List Node :=
  imgs.foldl (fun g src => g ++ [Node.img src "Coloring page preview"]) grid

/-- The function `generatePreview`. -/
def generatePreview (s : Page) : Completion :=
  let prompt := jsTrim s.promptInput
  if prompt = "" then
    .normal (alert "Please enter a description of your desired coloring book theme." s)
  else
    let s1 := { s with generatedImages := [] }
    let s2 := { s1 with generatedImages := pushSamples samples s1.generatedImages }
    let s3 := { s2 with previewGrid := [] }
    let s4 := { s3 with previewGrid := appendImages s3.generatedImages s3.previewGrid }
    .normal { s4 with orderSection := "block" }

/-! ## Order modal controller -/

/-- The function `closeOrderModal`. -/
def closeOrderModal (s : Page) : Completion :=
  .normal { s with orderModal := "none" }

/-- The `submit` event handed to `submitOrder`. -/
structure Event where
  cancelable : Bool
  defaultPrevented : Bool
  deriving DecidableEq, Repr

/-- The method `Event.prototype.preventDefault`. -/
def Event.preventDefault (e : Event) : Event :=
  if e.cancelable then { e with defaultPrevented := true } else e

/-- The method `HTMLFormElement.prototype.reset`: every control of the form goes
back to its default value, which is the empty string for the three controls of
`OrderFormEl`. -/
def OrderFormEl.reset (f : OrderFormEl) : OrderFormEl :=
  { f with customerName := "", customerEmail := "", customerAddress := "" }

/-- The message of `submitOrder` when a field is missing. -/
def missingFieldMessage : String :=
  "Please fill out all fields before submitting your order."

/-- The confirmation of `submitOrder`, built by string concatenation. -/
def confirmationMessage (name email : String) : String :=
  "Thank you, " ++ name ++
    "! Your custom coloring book will be processed. We will contact you at " ++
    email ++ " with shipping updates."

/-- The function `submitOrder`.  Reading `.value` of a control that does not
exist (no `#orderForm` in the page) is an uncaught `TypeError`. -/
def submitOrder (event : Event) (s : Page) : Event × Completion :=
  let event := event.preventDefault
  match s.orderForm with
  | none => (event, .throw "TypeError" s)
  | some f =>
    let name := jsTrim f.customerName
    let email := jsTrim f.customerEmail
    let address := jsTrim f.customerAddress
    if name = "" ∨ email = "" ∨ address = "" then
      (event, .normal (alert missingFieldMessage s))
    else
      let s1 := alert (confirmationMessage name email) s
      let s2 := { s1 with orderForm := some f.reset }
      (event, closeOrderModal s2)

/-! ## Payment widget adapter -/

/-- The `style` entry of the configuration passed to `paypal.Buttons`. -/
def buttonStyle : ButtonStyle :=
  { color := "gold", shape := "rect", label := "pay", tagline := false }

/-- The message logged when the global `paypal` is undefined. -/
def sdkMissingMessage : String :=
  "PayPal SDK not loaded. Please check the client ID in index.html"

/-- The function `initPayPalButtons`. -/
def initPayPalButtons (s : Page) : Completion :=
  match s.paypalContainer with
  | none => .normal s
  | some container =>
    if container.rendered = some "true" then .normal s
    else if s.paypal = false then
      .normal (consoleError [sdkMissingMessage] s)
    else
      let s1 := { s with renders := s.renders ++ [RenderCall.mk buttonStyle "#paypalContainer"] }
      .normal { s1 with paypalContainer := some { container with rendered := some "true" } }

/-- The function `openOrderModal`. -/
def openOrderModal (s : Page) : Completion :=
  initPayPalButtons { s with orderModal := "flex" }

/-- The object `details` the SDK passes to the continuation of a capture; the
script reads `details.payer.name.given_name` only. -/
structure CaptureDetails where
  givenName : String
  deriving DecidableEq, Repr

/-- The callback `onApprove`: it calls `actions.order.capture()` and registers
its continuation with `.then`; a promise never runs a continuation within the
call that registers it. -/
def onApprove (_data : String) (s : Page) : Page :=
  { s with captureCalls := s.captureCalls + 1, pending := s.pending ++ [Continuation.ofCapture] }

/-- The body of the function passed to `.then` in `onApprove`. -/
def afterCapture (details : CaptureDetails) (s : Page) : Page :=
  let s1 := alert ("Payment completed by " ++ details.givenName ++
    ". Please provide your shipping details.") s
  let s2 := { s1 with paypalContainer := s1.paypalContainer.map fun (c : Container) => { c with display := "none" } }
  match s2.orderForm with
  | none => s2
  | some form => { s2 with orderForm := some { form with display := "block" } }

/-- Run a registered continuation. -/
def Continuation.run : Continuation → CaptureDetails → Page → Page
  | .ofCapture => afterCapture

/-- The SDK completes the oldest capture in flight with `details`: its
continuation runs. -/
def captureCompleted (details : CaptureDetails) (s : Page) : Page :=
  match s.pending with
  | [] => s
  | k :: rest => k.run details { s with pending := rest }

/-- The callback `onError`. -/
def onError (err : String) (s : Page) : Page :=
  alert "There was an error processing your payment. Please try again."
    (consoleError ["PayPal Button Error:", err] s)

/-! ## Numbers

`BOOK_PRICE` is the Number value of the literal `29.99`, a double, and
`createOrder` converts it with `Number.prototype.toString`.  Both steps follow
ECMA-262: the literal denotes the double nearest to `2999 / 100` (ties to
even), and the conversion writes the shortest decimal that converts back to
the same double. -/

/-- A positive rational `num / den`. -/
structure PosRat where
  num : Nat
  den : Nat
  deriving DecidableEq, Repr

/-- A positive normal double `mant * 2 ^ exp`, with `2 ^ 52 ≤ mant < 2 ^ 53`. -/
structure Double where
  mant : Nat
  exp : Int
  deriving DecidableEq, Repr

/-- The rational `s * 10 ^ e`. -/
def decimal (s : Nat) (e : Int) : PosRat :=
  if 0 ≤ e then ⟨s * 10 ^ e.toNat, 1⟩ else ⟨s, 10 ^ (-e).toNat⟩

/-- The exact value of a double. -/
def Double.toRat (x : Double) : PosRat :=
  if 0 ≤ x.exp then ⟨x.mant * 2 ^ x.exp.toNat, 1⟩ else ⟨x.mant, 2 ^ (-x.exp).toNat⟩

/-- Halve `n` until it is below 2, counting the steps. -/
def log2Loop : Nat → Nat → Nat
  | 0, _ => 0
  | fuel + 1, n => if 2 ≤ n then log2Loop fuel (n / 2) + 1 else 0

/-- The floor of the binary logarithm of a natural number. -/
def natLog2 (n : Nat) : Nat :=
  log2Loop n n

/-- The floor of the binary logarithm of a positive rational. -/
def floorLog2 (q : PosRat) : Int :=
  let t : Int := (natLog2 q.num : Int) - (natLog2 q.den : Int)
  if q.num * 2 ^ (-t).toNat < q.den * 2 ^ t.toNat then t - 1 else t

/-- The double nearest to a positive rational in the normal range, ties to the
even significand. -/
def roundToDouble (q : PosRat) : Double :=
  let e := floorLog2 q - 52
  let n := q.num * 2 ^ (-e).toNat
  let d := q.den * 2 ^ e.toNat
  let m := n / d
  let r := n % d
  let m1 := if d < 2 * r ∨ (2 * r = d ∧ m % 2 = 1) then m + 1 else m
  if m1 = 2 ^ 53 then ⟨2 ^ 52, e + 1⟩ else ⟨m1, e⟩

/-- For `q < 1`: the number of zeros between the decimal point and the first
significant digit of `q`, searched upwards from `j`. -/
def leadingZeros (q : PosRat) : Nat → Nat → Nat
  | 0, j => j
  | fuel + 1, j => if q.den ≤ q.num * 10 ^ (j + 1) then j else leadingZeros q fuel (j + 1)

/-- The integer `n` with `10 ^ (n - 1) ≤ q < 10 ^ n`. -/
def magnitude (q : PosRat) : Int :=
  if q.den ≤ q.num then ((Nat.toDigits 10 (q.num / q.den)).length : Int)
  else - (leadingZeros q 400 0 : Int)

/-- The floor of `q / 10 ^ e`. -/
def scaledFloor (q : PosRat) (e : Int) : Nat :=
  (q.num * 10 ^ (-e).toNat) / (q.den * 10 ^ e.toNat)

/-- Whether `s` has exactly `k` decimal digits and `s * 10 ^ (n - k)` converts
to the double `x`. -/
def isDigitString (x : Double) (n : Int) (k s : Nat) : Bool :=
  decide (10 ^ (k - 1) ≤ s) && decide (s < 10 ^ k) &&
    decide (roundToDouble (decimal s (n - k)) = x)

/-- The distance between `s * 10 ^ e` and `q`, in units of
`1 / (q.den * 10 ^ (-e))`. -/
def distance (q : PosRat) (s : Nat) (e : Int) : Nat :=
  let a := s * 10 ^ e.toNat * q.den
  let b := q.num * 10 ^ (-e).toNat
  if a ≤ b then b - a else a - b

/-- The pairs `(n, s)` with `s` of `k` digits for which `s * 10 ^ (n - k)`
converts to `x`: such a value is next to `x`, so `s` is the floor of
`x / 10 ^ (n - k)` or its successor. -/
def candidates (x : Double) (k : Nat) : List (Int × Nat) :=
  let q := x.toRat
  let n0 := magnitude q
  ([n0, n0 + 1].flatMap fun n =>
    let f := scaledFloor q (n - k)
    [(n, f), (n, f + 1)]).filter fun c => isDigitString x c.1 k c.2

/-- Of two candidates with `k` digits, the one closer to `x`; at the same
distance, the even one. -/
def closer (x : Double) (k : Nat) (c1 c2 : Int × Nat) : Int × Nat :=
  let q := x.toRat
  let d1 := distance q c1.2 (c1.1 - k) * 10 ^ (-(c2.1 - k)).toNat
  let d2 := distance q c2.2 (c2.1 - k) * 10 ^ (-(c1.1 - k)).toNat
  if d2 < d1 ∨ (d2 = d1 ∧ c2.2 % 2 = 0) then c2 else c1

/-- The triple `(n, k, s)` of ECMA-262 `Number::toString`: `k` as small as
possible, tried from `k` upwards. -/
def shortestDigits (x : Double) : Nat → Nat → Option (Int × Nat × Nat)
  | 0, _ => none
  | fuel + 1, k =>
    match candidates x k with
    | [] => shortestDigits x fuel (k + 1)
    | c :: cs =>
      let b := cs.foldl (closer x k) c
      some (b.1, k, b.2)

/-- The layout steps of `Number::toString` for the digits `s` (`k` of them) and
the exponent `n`. -/
def formatDigits (n : Int) (k s : Nat) : String :=
  let digits := Nat.toDigits 10 s
  if (k : Int) ≤ n ∧ n ≤ 21 then
    String.mk (digits ++ List.replicate (n - k).toNat '0')
  else if 0 < n ∧ n ≤ 21 then
    String.mk (digits.take n.toNat ++ ['.'] ++ digits.drop n.toNat)
  else if -6 < n ∧ n ≤ 0 then
    String.mk (['0', '.'] ++ List.replicate (-n).toNat '0' ++ digits)
  else
    let e := n - 1
    let sign := if e < 0 then '-' else '+'
    if k = 1 then String.mk (digits ++ ['e', sign] ++ Nat.toDigits 10 e.natAbs)
    else String.mk (digits.take 1 ++ ['.'] ++ digits.drop 1 ++ ['e', sign] ++
      Nat.toDigits 10 e.natAbs)

/-- The method `Number.prototype.toString` (radix 10) on a positive double. -/
def numberToString (x : Double) : String :=
  match shortestDigits x 17 1 with
  | none => "NaN"
  | some (n, k, s) => formatDigits n k s

/-- The script constant `BOOK_PRICE = 29.99`. -/
def BOOK_PRICE : Double :=
  roundToDouble ⟨2999, 100⟩

/-! ## The callbacks of the payment button -/

/-- The entry `amount` of a purchase unit. -/
structure Amount where
  value : String
  deriving DecidableEq, Repr

/-- One entry of `purchase_units`. -/
structure PurchaseUnit where
  amount : Amount
  description : String
  deriving DecidableEq, Repr

/-- The object passed to `actions.order.create`. -/
structure OrderRequest where
  purchase_units : List PurchaseUnit
  deriving DecidableEq, Repr

/-- The callback `createOrder`: the order it hands to `actions.order.create`.
The callback is a closure of the page script, so the page is an argument. -/
def createOrder (_data : String) (_s : Page) : OrderRequest :=
  { purchase_units :=
      [{ amount := { value := numberToString BOOK_PRICE },
         description := "Custom AI Coloring Book" }] }

/-! ## Sessions -/

/-- What can happen in a page session: the four bound listeners, the user
editing a control, the SDK script finishing to load, and the SDK calling back. -/
inductive Op where
  | generate
  | openModal
  | closeModal
  | submit (event : Event)
  | typePrompt (value : String)
  | typeName (value : String)
  | typeEmail (value : String)
  | typeAddress (value : String)
  | sdkLoaded
  | approve (data : String)
  | captureDone (details : CaptureDetails)
  | paymentError (err : String)
  deriving DecidableEq, Repr

/-- The page after one event; an exception a listener does not catch ends that
listener only. -/
def step (s : Page) : Op → Page
  | .generate => (generatePreview s).page
  | .openModal => (openOrderModal s).page
  | .closeModal => (closeOrderModal s).page
  | .submit event => (submitOrder event s).2.page
  | .typePrompt v => { s with promptInput := v }
  | .typeName v => { s with orderForm := s.orderForm.map fun (f : OrderFormEl) => { f with customerName := v } }
  | .typeEmail v => { s with orderForm := s.orderForm.map fun (f : OrderFormEl) => { f with customerEmail := v } }
  | .typeAddress v => { s with orderForm := s.orderForm.map fun (f : OrderFormEl) => { f with customerAddress := v } }
  | .sdkLoaded => { s with paypal := true }
  | .approve data => onApprove data s
  | .captureDone details => captureCompleted details s
  | .paymentError err => onError err s

/-- The page after a sequence of events. -/
def run (s : Page) (ops : List Op) : Page :=
  ops.foldl step s

/-- Modelled from the spec: the markup of the page (`index.html`) is not among
the sources.  A page right after loading, as the spec describes it: nothing
generated, order section and modal hidden, the form empty, the payment
container present and not rendered; `sdk` says whether the SDK has loaded. -/
def freshPage (sdk : Bool) : Page :=
  { generatedImages := [], promptInput := "", previewGrid := [],
    orderSection := "none", orderModal := "none",
    orderForm := some { display := "none", customerName := "", customerEmail := "",
                        customerAddress := "" },
    paypalContainer := some { display := "", rendered := none },
    paypal := sdk, alerts := [], consoleErrors := [], renders := [],
    captureCalls := 0, pending := [] }

/-! ## Example pages -/

/-- A page on which the user has typed the prompt `sea animals`. -/
def seaAnimalsPage : Page :=
  { freshPage true with promptInput := "sea animals" }

/-- A page whose prompt holds a space, a tab and a no-break space, over an
earlier preview. -/
def blankPromptPage : Page :=
  { freshPage true with
      promptInput := String.mk [' ', '\t', Char.ofNat 0xA0],
      generatedImages := ["assets/page1.png"],
      previewGrid := [Node.img "assets/page1.png" "Coloring page preview"] }

/-- An order form with a name and an e-mail address but a blank address. -/
def incompleteForm : OrderFormEl :=
  { display := "block", customerName := "Jane", customerEmail := "jane@x.com",
    customerAddress := "  " }

/-- An order form filled in by Jane. -/
def janeForm : OrderFormEl :=
  { display := "block", customerName := " Jane ", customerEmail := "jane@x.com",
    customerAddress := "1 Main St" }

/-- A page with the modal open over `incompleteForm`. -/
def incompleteFormPage : Page :=
  { freshPage true with orderModal := "flex", orderForm := some incompleteForm }

/-- A page with the modal open over `janeForm`. -/
def filledFormPage : Page :=
  { freshPage true with orderModal := "flex", orderForm := some janeForm }

/-- A page without the element `#paypalContainer`, the SDK not loaded. -/
def noContainerPage : Page :=
  { freshPage false with paypalContainer := none }

/-- A page whose payment container carries the rendered marker, the global
`paypal` undefined. -/
def markedPage : Page :=
  { freshPage false with paypalContainer := some { display := "", rendered := some "true" } }

/-- The entry `dataset.rendered` of the payment container, if there is one. -/
def marker (s : Page) : Option String :=
  s.paypalContainer.bind fun (c : Container) => c.rendered

/-! ## Facts about trimming -/

theorem dropWhile_all_eq_nil (p : Char → Bool) (l : List Char)
    (h : ∀ c ∈ l.dropWhile p, p c = true) : l.dropWhile p = [] := by
  induction l with
  | nil => rfl
  | cons a t ih =>
    by_cases ha : p a = true
    · simp only [List.dropWhile_cons_of_pos ha] at h ⊢
      exact ih h
    · exfalso
      apply ha
      apply h
      simp [List.dropWhile_cons_of_neg ha]

theorem trimChars_eq_nil_iff (l : List Char) :
    trimChars l = [] ↔ ∀ c ∈ l, isJsWhiteSpace c = true := by
  unfold trimChars trimEndChars
  rw [List.reverse_eq_nil_iff, List.dropWhile_eq_nil_iff]
  constructor
  · intro h
    have h1 : l.dropWhile isJsWhiteSpace = [] :=
      dropWhile_all_eq_nil _ _ (fun c hc => h c (List.mem_reverse.mpr hc))
    exact List.dropWhile_eq_nil_iff.mp h1
  · intro h c hc
    have h1 : l.dropWhile isJsWhiteSpace = [] := List.dropWhile_eq_nil_iff.mpr h
    rw [h1] at hc
    simp at hc

theorem jsTrim_eq_empty_iff (p : String) :
    jsTrim p = "" ↔ ∀ c ∈ p.toList, isJsWhiteSpace c = true := by
  rw [← trimChars_eq_nil_iff]
  unfold jsTrim
  constructor
  · intro h
    have := congrArg String.data h
    simpa using this
  · intro h
    rw [h]

/-- On a prompt that is not blank, `generatePreview` takes its second branch. -/
theorem generatePreview_of_prompt (s : Page) (h : jsTrim s.promptInput ≠ "") :
    generatePreview s = Completion.normal
      { s with generatedImages := pushSamples samples [],
               previewGrid := appendImages (pushSamples samples []) [],
               orderSection := "block" } := by
  unfold generatePreview
  rw [if_neg h]

/-- On a blank prompt, `generatePreview` takes its first branch. -/
theorem generatePreview_of_blank (s : Page) (h : jsTrim s.promptInput = "") :
    generatePreview s = Completion.normal { s with alerts := s.alerts ++
      ["Please enter a description of your desired coloring book theme."] } := by
  unfold generatePreview
  rw [if_pos h]
  rfl

/-- The 25 entries the loop of `generatePreview` pushes on an empty array. -/
theorem pushSamples_samples :
    pushSamples samples [] =
      ["assets/page1.png", "assets/page2.png", "assets/page3.png",
       "assets/page1.png", "assets/page2.png", "assets/page3.png",
       "assets/page1.png", "assets/page2.png", "assets/page3.png",
       "assets/page1.png", "assets/page2.png", "assets/page3.png",
       "assets/page1.png", "assets/page2.png", "assets/page3.png",
       "assets/page1.png", "assets/page2.png", "assets/page3.png",
       "assets/page1.png", "assets/page2.png", "assets/page3.png",
       "assets/page1.png", "assets/page2.png", "assets/page3.png",
       "assets/page1.png"] := by
  rfl

/-- The elements `forEach` appends to an empty grid, in the order of the images. -/
theorem appendImages_nil (imgs : List String) :
    appendImages imgs [] = imgs.map (fun src => Node.img src "Coloring page preview") := by
  have key : ∀ (l : List String) (g : List Node),
      appendImages l g = g ++ l.map (fun src => Node.img src "Coloring page preview") := by
    intro l
    induction l with
    | nil => intro g; simp [appendImages]
    | cons a t ih =>
      intro g
      have := ih (g ++ [Node.img a "Coloring page preview"])
      simp only [appendImages, List.foldl_cons] at this ⊢
      rw [this]
      simp
  simpa using key imgs []

/-! ## Preview generator -/

/-- C1: for every prompt that is non-empty after trimming, from every prior
state, `generatePreview` completes normally and leaves exactly 25 generated
images, the one at position `i` being `pool[i mod 3]` for the pool
page1, page2, page3; the earlier set is replaced (the result does not depend
on it), the preview grid holds one image element per entry in the same order,
the last entry (position 24) is page1, and the order section is shown. -/
theorem generatePreview_fills_preview (s : Page) (h : jsTrim s.promptInput ≠ "") :
    ∃ s', generatePreview s = Completion.normal s' ∧
      s'.generatedImages.length = 25 ∧
      (∀ i, i < 25 → s'.generatedImages[i]? =
        ["assets/page1.png", "assets/page2.png", "assets/page3.png"][i % 3]?) ∧
      s'.generatedImages = pushSamples samples [] ∧
      s'.previewGrid = s'.generatedImages.map (fun src => Node.img src "Coloring page preview") ∧
      s'.generatedImages[24]? = some "assets/page1.png" ∧
      s'.generatedImages.getLast? = some "assets/page1.png" ∧
      s'.orderSection = "block" := by
  refine ⟨_, generatePreview_of_prompt s h, ?_, ?_, rfl, ?_, ?_, ?_, rfl⟩
  · show (pushSamples samples []).length = 25
    rw [pushSamples_samples]
    rfl
  · intro i hi
    show (pushSamples samples [])[i]? = _
    rw [pushSamples_samples]
    interval_cases i <;> rfl
  · exact appendImages_nil _
  · show (pushSamples samples [])[24]? = _
    rw [pushSamples_samples]
    rfl
  · show (pushSamples samples []).getLast? = _
    rw [pushSamples_samples]
    rfl

/-- C1, at the prompt `sea animals`. -/
theorem generatePreview_fills_preview_witness :
    jsTrim seaAnimalsPage.promptInput ≠ "" ∧
    ∃ s', generatePreview seaAnimalsPage = Completion.normal s' ∧
      s'.generatedImages.length = 25 ∧
      (∀ i, i < 25 → s'.generatedImages[i]? =
        ["assets/page1.png", "assets/page2.png", "assets/page3.png"][i % 3]?) ∧
      s'.generatedImages = pushSamples samples [] ∧
      s'.previewGrid = s'.generatedImages.map (fun src => Node.img src "Coloring page preview") ∧
      s'.generatedImages[24]? = some "assets/page1.png" ∧
      s'.generatedImages.getLast? = some "assets/page1.png" ∧
      s'.orderSection = "block" :=
  ⟨by decide, generatePreview_fills_preview seaAnimalsPage (by decide)⟩

/-- C2: for every prompt that is empty or holds white space only,
`generatePreview` shows the missing-theme message and returns; nothing else
changes: the order section keeps its visibility, and the preview grid and the
generated images are as before. -/
theorem generatePreview_blank_prompt (s : Page)
    (h : ∀ c ∈ s.promptInput.toList, isJsWhiteSpace c = true) :
    generatePreview s = Completion.normal { s with alerts := s.alerts ++
      ["Please enter a description of your desired coloring book theme."] } ∧
    (generatePreview s).page.orderSection = s.orderSection ∧
    (generatePreview s).page.previewGrid = s.previewGrid ∧
    (generatePreview s).page.generatedImages = s.generatedImages := by
  have h0 : jsTrim s.promptInput = "" := (jsTrim_eq_empty_iff _).mpr h
  rw [generatePreview_of_blank s h0]
  exact ⟨rfl, rfl, rfl, rfl⟩

/-- C2, at a prompt of a space, a tab and a no-break space. -/
theorem generatePreview_blank_prompt_witness :
    (∀ c ∈ blankPromptPage.promptInput.toList, isJsWhiteSpace c = true) ∧
    generatePreview blankPromptPage = Completion.normal { blankPromptPage with alerts :=
      blankPromptPage.alerts ++
        ["Please enter a description of your desired coloring book theme."] } ∧
    (generatePreview blankPromptPage).page.orderSection = blankPromptPage.orderSection ∧
    (generatePreview blankPromptPage).page.previewGrid = blankPromptPage.previewGrid ∧
    (generatePreview blankPromptPage).page.generatedImages = blankPromptPage.generatedImages :=
  ⟨by decide, generatePreview_blank_prompt blankPromptPage (by decide)⟩

/-! ## Order modal controller -/

/-- Without the form, `submitOrder` ends with the exception, the page as it was. -/
theorem submitOrder_of_no_form (event : Event) (s : Page) (hf : s.orderForm = none) :
    submitOrder event s = (event.preventDefault, Completion.throw "TypeError" s) := by
  obtain ⟨gi, pi, pg, os, om, ofm, pc, pp, al, ce, rn, cc, pd⟩ := s
  simp only at hf
  subst hf
  rfl

/-- The branch of `submitOrder` taken on a form with a missing field. -/
theorem submitOrder_of_missing (event : Event) (s : Page) (f : OrderFormEl)
    (hf : s.orderForm = some f)
    (h : jsTrim f.customerName = "" ∨ jsTrim f.customerEmail = "" ∨
      jsTrim f.customerAddress = "") :
    submitOrder event s = (event.preventDefault, Completion.normal
      { s with alerts := s.alerts ++ [missingFieldMessage] }) := by
  obtain ⟨gi, pi, pg, os, om, ofm, pc, pp, al, ce, rn, cc, pd⟩ := s
  simp only at hf
  subst hf
  unfold submitOrder
  simp only []
  rw [if_pos h]
  rfl

/-- The branch of `submitOrder` taken on a complete form. -/
theorem submitOrder_of_complete (event : Event) (s : Page) (f : OrderFormEl)
    (hf : s.orderForm = some f)
    (hn : jsTrim f.customerName ≠ "") (he : jsTrim f.customerEmail ≠ "")
    (ha : jsTrim f.customerAddress ≠ "") :
    submitOrder event s = (event.preventDefault, Completion.normal
      { s with
          alerts := s.alerts ++
            [confirmationMessage (jsTrim f.customerName) (jsTrim f.customerEmail)],
          orderForm := some { f with customerName := "", customerEmail := "",
                                     customerAddress := "" },
          orderModal := "none" }) := by
  obtain ⟨gi, pi, pg, os, om, ofm, pc, pp, al, ce, rn, cc, pd⟩ := s
  simp only at hf
  subst hf
  unfold submitOrder
  simp only []
  rw [if_neg (by simp [hn, he, ha])]
  rfl

/-- C3: for every order form in which the name, the e-mail address or the
address is empty after trimming, `submitOrder` shows the missing-field message
and returns; the page is otherwise unchanged, so the modal keeps its
visibility, the three fields keep the values entered, and no confirmation is
shown. -/
theorem submitOrder_missing_field (event : Event) (s : Page) (f : OrderFormEl)
    (hf : s.orderForm = some f)
    (h : jsTrim f.customerName = "" ∨ jsTrim f.customerEmail = "" ∨
      jsTrim f.customerAddress = "") :
    submitOrder event s = (event.preventDefault, Completion.normal
      { s with alerts := s.alerts ++ [missingFieldMessage] }) ∧
    (submitOrder event s).2.page.orderModal = s.orderModal ∧
    (submitOrder event s).2.page.orderForm = some f ∧
    (submitOrder event s).2.page.alerts = s.alerts ++
      ["Please fill out all fields before submitting your order."] := by
  rw [submitOrder_of_missing event s f hf h]
  exact ⟨rfl, rfl, hf, rfl⟩

/-- C3, at a form with a blank address, the modal open. -/
theorem submitOrder_missing_field_witness :
    incompleteFormPage.orderForm = some incompleteForm ∧
    (jsTrim incompleteForm.customerName = "" ∨ jsTrim incompleteForm.customerEmail = "" ∨
      jsTrim incompleteForm.customerAddress = "") ∧
    submitOrder ⟨true, false⟩ incompleteFormPage = (Event.preventDefault ⟨true, false⟩,
      Completion.normal { incompleteFormPage with
        alerts := incompleteFormPage.alerts ++ [missingFieldMessage] }) ∧
    (submitOrder ⟨true, false⟩ incompleteFormPage).2.page.orderModal = incompleteFormPage.orderModal ∧
    (submitOrder ⟨true, false⟩ incompleteFormPage).2.page.orderForm = some incompleteForm ∧
    (submitOrder ⟨true, false⟩ incompleteFormPage).2.page.alerts = incompleteFormPage.alerts ++
      ["Please fill out all fields before submitting your order."] :=
  ⟨rfl, by decide,
    submitOrder_missing_field ⟨true, false⟩ incompleteFormPage incompleteForm rfl (by decide)⟩

/-- C4: for every order form whose name, e-mail address and address are all
non-empty after trimming, whatever the rest of the page (modal open or not,
payment approved or not), `submitOrder` completes normally: it shows one
confirmation, which contains the trimmed name and the trimmed e-mail address,
then the three fields are empty and the modal is closed. -/
theorem submitOrder_success (event : Event) (s : Page) (f : OrderFormEl)
    (hf : s.orderForm = some f)
    (hn : jsTrim f.customerName ≠ "") (he : jsTrim f.customerEmail ≠ "")
    (ha : jsTrim f.customerAddress ≠ "") :
    submitOrder event s = (event.preventDefault, Completion.normal
      { s with
          alerts := s.alerts ++
            ["Thank you, " ++ jsTrim f.customerName ++
              "! Your custom coloring book will be processed. We will contact you at " ++
              jsTrim f.customerEmail ++ " with shipping updates."],
          orderForm := some { f with customerName := "", customerEmail := "",
                                     customerAddress := "" },
          orderModal := "none" }) :=
  submitOrder_of_complete event s f hf hn he ha

/-- C4, at the form of Jane. -/
theorem submitOrder_success_witness :
    filledFormPage.orderForm = some janeForm ∧
    (jsTrim janeForm.customerName ≠ "" ∧ jsTrim janeForm.customerEmail ≠ "" ∧
      jsTrim janeForm.customerAddress ≠ "") ∧
    submitOrder ⟨true, false⟩ filledFormPage = (Event.preventDefault ⟨true, false⟩,
      Completion.normal { filledFormPage with
        alerts := filledFormPage.alerts ++
          ["Thank you, " ++ jsTrim janeForm.customerName ++
            "! Your custom coloring book will be processed. We will contact you at " ++
            jsTrim janeForm.customerEmail ++ " with shipping updates."],
        orderForm := some { janeForm with customerName := "", customerEmail := "",
                                          customerAddress := "" },
        orderModal := "none" }) :=
  ⟨rfl, by decide,
    submitOrder_success ⟨true, false⟩ filledFormPage janeForm rfl
      (by decide) (by decide) (by decide)⟩

/-- C7, as the code has it: `closeOrderModal` hides the modal and changes
nothing else; the name, e-mail address and address keep the values they had
(they are emptied by a successful submission only). -/
theorem closeOrderModal_hides_only (s : Page) :
    closeOrderModal s = Completion.normal { s with orderModal := "none" } ∧
    (closeOrderModal s).page.orderForm = s.orderForm :=
  ⟨rfl, rfl⟩

/-- C7 fails as stated: closing the modal over the form Jane filled in leaves
the name, the e-mail address and the address as they were, not empty. -/
theorem closeOrderModal_keeps_fields :
    (closeOrderModal filledFormPage).page.orderForm = some janeForm ∧
    janeForm.customerName = " Jane " ∧
    ¬ ((closeOrderModal filledFormPage).page.orderForm =
      some { janeForm with customerName := "", customerEmail := "",
                           customerAddress := "" }) := by
  decide

/-! ## Payment widget adapter -/

/-- With the marker set, `initPayPalButtons` returns at its first test. -/
theorem initPayPalButtons_of_marked (s : Page) (h : marker s = some "true") :
    initPayPalButtons s = Completion.normal s := by
  unfold initPayPalButtons
  unfold marker at h
  cases hc : s.paypalContainer with
  | none => rfl
  | some c =>
    rw [hc] at h
    simp only [Option.some_bind] at h
    simp only [h, if_true]

/-- What one call of `initPayPalButtons` does to the render calls and the
marker: nothing, or one more render call with the marker set by it. -/
theorem initPayPalButtons_renders (s : Page) :
    ((initPayPalButtons s).page.renders = s.renders ∧
      marker (initPayPalButtons s).page = marker s ∧
      (initPayPalButtons s).page.paypal = s.paypal) ∨
    (marker s ≠ some "true" ∧ s.paypal = true ∧
      (initPayPalButtons s).page.renders =
        s.renders ++ [RenderCall.mk buttonStyle "#paypalContainer"] ∧
      marker (initPayPalButtons s).page = some "true") := by
  unfold initPayPalButtons
  cases hc : s.paypalContainer with
  | none => left; exact ⟨rfl, rfl, rfl⟩
  | some c =>
    by_cases hr : c.rendered = some "true"
    · left
      simp only [hr, if_true]
      exact ⟨rfl, rfl, rfl⟩
    · by_cases hp : s.paypal = false
      · left
        simp only [hr, hp, if_true, if_false]
        exact ⟨rfl, rfl, hp⟩
      · right
        simp only [hr, hp, if_false]
        refine ⟨?_, by simp [hp], rfl, rfl⟩
        simp [marker, hc, hr]

/-- Every event but the opening of the modal leaves the render calls and the
marker alone; opening the modal adds at most one render call, and only while
the marker is not set, setting it. -/
theorem step_renders (s : Page) (op : Op) :
    ((step s op).renders = s.renders ∧ marker (step s op) = marker s) ∨
    (marker s ≠ some "true" ∧
      (step s op).renders.length = s.renders.length + 1 ∧
      marker (step s op) = some "true") := by
  cases op with
  | generate =>
    left
    show (generatePreview s).page.renders = s.renders ∧
      marker (generatePreview s).page = marker s
    by_cases h : jsTrim s.promptInput = ""
    · rw [generatePreview_of_blank s h]; exact ⟨rfl, rfl⟩
    · rw [generatePreview_of_prompt s h]; exact ⟨rfl, rfl⟩
  | openModal =>
    simp only [step, openOrderModal]
    rcases initPayPalButtons_renders { s with orderModal := "flex" } with h | h
    · left; exact ⟨h.1, h.2.1⟩
    · right
      refine ⟨h.1, ?_, h.2.2.2⟩
      rw [h.2.2.1]
      simp
  | closeModal => left; exact ⟨rfl, rfl⟩
  | submit event =>
    left
    show (submitOrder event s).2.page.renders = s.renders ∧
      marker (submitOrder event s).2.page = marker s
    cases hf : s.orderForm with
    | none => rw [submitOrder_of_no_form event s hf]; exact ⟨rfl, rfl⟩
    | some f =>
      by_cases h : jsTrim f.customerName = "" ∨ jsTrim f.customerEmail = "" ∨
          jsTrim f.customerAddress = ""
      · rw [submitOrder_of_missing event s f hf h]; exact ⟨rfl, rfl⟩
      · simp only [not_or] at h
        rw [submitOrder_of_complete event s f hf h.1 h.2.1 h.2.2]; exact ⟨rfl, rfl⟩
  | typePrompt v => left; exact ⟨rfl, rfl⟩
  | typeName v => left; exact ⟨rfl, rfl⟩
  | typeEmail v => left; exact ⟨rfl, rfl⟩
  | typeAddress v => left; exact ⟨rfl, rfl⟩
  | sdkLoaded => left; exact ⟨rfl, rfl⟩
  | approve data => left; exact ⟨rfl, rfl⟩
  | captureDone details =>
    left
    simp only [step, captureCompleted]
    split
    · exact ⟨rfl, rfl⟩
    · rename_i k rest hk
      cases k
      simp only [Continuation.run, afterCapture, alert]
      split
      · refine ⟨rfl, ?_⟩
        simp only [marker]
        cases s.paypalContainer <;> rfl
      · refine ⟨rfl, ?_⟩
        simp only [marker]
        cases s.paypalContainer <;> rfl
  | paymentError err => left; exact ⟨rfl, rfl⟩

/-- Over a session the render calls grow by at most one, and not at all once
the marker is set. -/
theorem run_renders (ops : List Op) :
    ∀ s : Page, (run s ops).renders.length ≤ s.renders.length + 1 ∧
      (marker s = some "true" → (run s ops).renders = s.renders) := by
  induction ops with
  | nil => intro s; exact ⟨Nat.le_succ _, fun _ => rfl⟩
  | cons op rest ih =>
    intro s
    have hrun : run s (op :: rest) = run (step s op) rest := rfl
    rw [hrun]
    rcases step_renders s op with h | h
    · refine ⟨?_, fun hm => ?_⟩
      · have := (ih (step s op)).1
        rw [h.1] at this
        exact this
      · rw [(ih (step s op)).2 (h.2.trans hm), h.1]
    · refine ⟨?_, fun hm => absurd hm h.1⟩
      have := (ih (step s op)).2 h.2.2
      rw [this, h.2.1]

/-- A second opening of the modal right after a first one makes no render call. -/
theorem openOrderModal_twice (s : Page) :
    (openOrderModal (openOrderModal s).page).page.renders =
      (openOrderModal s).page.renders := by
  obtain ⟨gi, pi, pg, os, om, ofm, pc, pp, al, ce, rn, cc, pd⟩ := s
  cases pc with
  | none => rfl
  | some c =>
    obtain ⟨d, r⟩ := c
    by_cases hr : r = some "true"
    · subst hr
      simp [openOrderModal, initPayPalButtons, Completion.page]
    · cases pp with
      | false => simp [openOrderModal, initPayPalButtons, hr, consoleError, Completion.page]
      | true => simp [openOrderModal, initPayPalButtons, hr, Completion.page]

/-- C5: initialisation of the widget is idempotent.  Opening the modal twice
in a row makes no render call beyond those of the first opening; over every
sequence of events of a session (opening, closing, generating, submitting,
and the user and the SDK acting in between) the render calls grow by at most
one, so a session that starts with none has at most one; the call that renders
sets the marker, and a call that finds the marker set changes nothing. -/
theorem render_at_most_once :
    (∀ s : Page, (openOrderModal (openOrderModal s).page).page.renders =
      (openOrderModal s).page.renders) ∧
    (∀ (s : Page) (ops : List Op), (run s ops).renders.length ≤ s.renders.length + 1) ∧
    (∀ (sdk : Bool) (ops : List Op), (run (freshPage sdk) ops).renders.length ≤ 1) ∧
    (∀ s : Page, (initPayPalButtons s).page.renders ≠ s.renders →
      marker (initPayPalButtons s).page = some "true") ∧
    (∀ s : Page, marker s = some "true" → initPayPalButtons s = Completion.normal s) := by
  refine ⟨openOrderModal_twice, fun s ops => (run_renders ops s).1,
    fun sdk ops => (run_renders ops (freshPage sdk)).1, fun s hne => ?_,
    initPayPalButtons_of_marked⟩
  rcases initPayPalButtons_renders s with h | h
  · exact absurd h.1 hne
  · exact h.2.2.2

/-- C5, in a session that opens the modal three times with the SDK loaded:
one render call. -/
theorem render_at_most_once_witness :
    (run (freshPage true)
      [Op.openModal, Op.openModal, Op.closeModal, Op.openModal]).renders.length ≤ 1 ∧
    (run (freshPage true)
      [Op.openModal, Op.openModal, Op.closeModal, Op.openModal]).renders =
        [RenderCall.mk buttonStyle "#paypalContainer"] :=
  ⟨render_at_most_once.2.2.1 true [Op.openModal, Op.openModal, Op.closeModal, Op.openModal],
    by decide⟩

/-- C6, as the code has it: with the global `paypal` undefined,
`openOrderModal` completes normally, shows the modal, makes no render call and
leaves the payment container, marker included, as it was; it logs the one
error when the container exists and does not carry the marker, and logs
nothing when the container is missing or already marked, since that test
comes first. -/
theorem openOrderModal_without_sdk (s : Page) (h : s.paypal = false) :
    (∀ c, s.paypalContainer = some c → c.rendered ≠ some "true" →
      openOrderModal s = Completion.normal
        { s with orderModal := "flex",
                 consoleErrors := s.consoleErrors ++ [[sdkMissingMessage]] }) ∧
    ((s.paypalContainer = none ∨ marker s = some "true") →
      openOrderModal s = Completion.normal { s with orderModal := "flex" }) ∧
    (openOrderModal s).page.renders = s.renders ∧
    (openOrderModal s).page.paypalContainer = s.paypalContainer ∧
    (openOrderModal s).page.orderModal = "flex" ∧
    (∃ s', openOrderModal s = Completion.normal s') := by
  obtain ⟨gi, pi, pg, os, om, ofm, pc, pp, al, ce, rn, cc, pd⟩ := s
  simp only at h
  subst h
  cases pc with
  | none =>
    refine ⟨fun c hc => ?_, fun _ => rfl, rfl, rfl, rfl, _, rfl⟩
    simp at hc
  | some c =>
    obtain ⟨d, r⟩ := c
    by_cases hr : r = some "true"
    · subst hr
      refine ⟨fun c hc hne => ?_, fun _ => ?_, ?_, ?_, ?_, ?_⟩
      · simp only [Option.some.injEq] at hc
        subst hc
        exact absurd rfl hne
      all_goals simp [openOrderModal, initPayPalButtons, Completion.page]
    · refine ⟨fun c hc hne => ?_, fun hm => ?_, ?_, ?_, ?_, ?_⟩
      · simp [openOrderModal, initPayPalButtons, hr, consoleError]
      · exfalso
        rcases hm with hm | hm
        · simp at hm
        · exact hr (by simpa [marker] using hm)
      all_goals simp [openOrderModal, initPayPalButtons, hr, consoleError, Completion.page]

/-- C6 as amended, on a fresh page without the SDK. -/
theorem openOrderModal_without_sdk_witness :
    (freshPage false).paypal = false ∧
    openOrderModal (freshPage false) = Completion.normal
      { freshPage false with orderModal := "flex",
                             consoleErrors := [[sdkMissingMessage]] } ∧
    (openOrderModal (freshPage false)).page.renders = [] :=
  ⟨rfl,
    (openOrderModal_without_sdk (freshPage false) rfl).1 ⟨"", none⟩ rfl (by decide),
    (openOrderModal_without_sdk (freshPage false) rfl).2.2.1⟩

/-- C6 fails as stated: with the global `paypal` undefined, opening the modal
on a page without the payment container logs no error, and opening it on a
page whose container carries the marker logs no error and leaves the marker
set. -/
theorem openOrderModal_logs_nothing :
    (noContainerPage.paypal = false ∧
      (openOrderModal noContainerPage).page.consoleErrors = [] ∧
      ¬ ((openOrderModal noContainerPage).page.consoleErrors.length =
        noContainerPage.consoleErrors.length + 1)) ∧
    (markedPage.paypal = false ∧
      (openOrderModal markedPage).page.consoleErrors = [] ∧
      marker (openOrderModal markedPage).page = some "true") := by
  decide

/-- C8: `onApprove` calls the capture step of the SDK and registers the
continuation; by the time it returns no message has been shown and neither
the payment container nor the form has changed.  When the capture completes,
the continuation shows the message with the given name of the payer, hides
the payment container and shows the shipping form.  Neither step changes the
visibility of the order modal or the values of the form fields. -/
theorem onApprove_two_phases (data : String) (details : CaptureDetails) (s : Page) :
    onApprove data s = { s with captureCalls := s.captureCalls + 1,
                                pending := s.pending ++ [Continuation.ofCapture] } ∧
    (onApprove data s).alerts = s.alerts ∧
    (onApprove data s).paypalContainer = s.paypalContainer ∧
    (onApprove data s).orderForm = s.orderForm ∧
    (onApprove data s).orderModal = s.orderModal ∧
    (captureCompleted details (onApprove data s)).alerts = s.alerts ++
      ["Payment completed by " ++ details.givenName ++
        ". Please provide your shipping details."] ∧
    (captureCompleted details (onApprove data s)).paypalContainer =
      s.paypalContainer.map (fun (c : Container) => { c with display := "none" }) ∧
    (captureCompleted details (onApprove data s)).orderForm =
      s.orderForm.map (fun (f : OrderFormEl) => { f with display := "block" }) ∧
    (captureCompleted details (onApprove data s)).orderModal = s.orderModal := by
  refine ⟨rfl, rfl, rfl, rfl, rfl, ?_⟩
  obtain ⟨gi, pi, pg, os, om, ofm, pc, pp, al, ce, rn, cc, pd⟩ := s
  cases pd with
  | nil => cases ofm <;> exact ⟨rfl, rfl, rfl, rfl⟩
  | cons k rest => cases k; cases ofm <;> exact ⟨rfl, rfl, rfl, rfl⟩

/-- The string of `BOOK_PRICE`. -/
theorem numberToString_BOOK_PRICE : numberToString BOOK_PRICE = "29.99" := by
  decide

/-- C9: whatever the SDK passes and whatever the page holds (prompt, preview,
form), `createOrder` requests an order of exactly one purchase unit, its
amount the string `29.99` of the fixed price and its description the fixed
label. -/
theorem createOrder_fixed (data : String) (s : Page) :
    createOrder data s =
      { purchase_units :=
          [{ amount := { value := "29.99" }, description := "Custom AI Coloring Book" }] } ∧
    (createOrder data s).purchase_units.length = 1 ∧
    BOOK_PRICE.toRat = ⟨8441434551552573, 2 ^ 48⟩ ∧
    roundToDouble (decimal 2999 (-2)) = BOOK_PRICE := by
  refine ⟨?_, rfl, by decide, by decide⟩
  unfold createOrder
  rw [numberToString_BOOK_PRICE]

/-- C10: for every error value and every page, `onError` logs the error and
shows the retry message, and changes nothing else: the order modal, the
payment container with its marker, the form with its fields, the preview and
the generated images are as before. -/
theorem onError_frame (err : String) (s : Page) :
    onError err s =
      { s with consoleErrors := s.consoleErrors ++ [["PayPal Button Error:", err]],
               alerts := s.alerts ++
                 ["There was an error processing your payment. Please try again."] } ∧
    (onError err s).orderModal = s.orderModal ∧
    (onError err s).paypalContainer = s.paypalContainer ∧
    (onError err s).orderForm = s.orderForm ∧
    (onError err s).previewGrid = s.previewGrid ∧
    (onError err s).generatedImages = s.generatedImages ∧
    (onError err s).orderSection = s.orderSection ∧
    (onError err s).renders = s.renders :=
  ⟨rfl, rfl, rfl, rfl, rfl, rfl, rfl, rfl⟩

end ColorMuse
